import Mathlib

/-!
Shallow embedding of toxcore/network.c (the TOX_ENABLE_IPV6 build, which is
the dual-stack configuration the specification describes).

Modelling conventions:
  * Machine bytes are Nat values (each intended < 256); u16 ports are Nat
    values (intended < 65536) and the bind-retry increment wraps mod 65536
    exactly as the ntohs/++/htons sequence does on a uint16_t.
  * The IP union { sa_family_t family; union { IP4 ip4; IP6 ip6; } } is
    modelled as a family tag plus the 16-byte union storage: the ip4 view
    reads the first 4 bytes of the storage, the ip6 view reads all 16 bytes.
    This mirrors the in-memory overlay that ip_equal relies on.
  * Ports are kept as plain 16-bit values; the C code stores them in network
    byte order end to end (sendpacket copies ip_port.port into sin6_port
    unchanged), so copies are value-preserving in either convention.
  * Effectful OS calls are inputs: bind outcomes are an oracle
    (Nat -> Bool), the recvfrom outcome is passed as (return length, wire
    source address), and handler invocations are collected in a trace.
-/

namespace Network

def AF_UNSPEC : Nat := 0
def AF_INET : Nat := 2
def AF_INET6 : Nat := 10

/-- The IP structure of network.h (TOX_ENABLE_IPV6): a family tag plus the
16-byte union storage shared by the ip4 and ip6 views. -/
structure IP where
  family : Nat
  addr : List Nat
deriving DecidableEq, Repr

/-- The first 4 bytes of the union storage: the ip4 view (in_addr). -/
def IP.ip4 (a : IP) : List Nat := a.addr.take 4

/-- ip_equal of network.c (TOX_ENABLE_IPV6 branch), non-NULL arguments.
Only the FIRST argument's family is inspected: AF_INET compares the 4-byte
ip4 views, AF_INET6 compares the whole 16-byte storage, anything else gives
0. -/
def ip_equal (a b : IP) : Bool :=
  if a.family = AF_INET then decide (a.ip4 = b.ip4)
  else if a.family = AF_INET6 then decide (a.addr = b.addr)
  else false

/-- IP_Port: an IP plus a port. -/
structure IP_Port where
  ip : IP
  port : Nat
deriving DecidableEq, Repr

/-- ipport_equal of network.c, non-NULL arguments. -/
def ipport_equal (a b : IP_Port) : Bool :=
  if a.port = 0 ∨ a.port ≠ b.port then false
  else ip_equal a.ip b.ip

/-- ip_isset of network.c (TOX_ENABLE_IPV6 branch), non-NULL argument:
only the family tag is consulted. -/
def ip_isset (a : IP) : Bool := a.family ≠ 0

/-- ipport_isset of network.c, non-NULL argument. -/
def ipport_isset (a : IP_Port) : Bool :=
  if a.port = 0 then false else ip_isset a.ip

/-- Claim C3 counterexample: ip_equal is not false on every cross-family
pair. Concretely, an AF_INET address compares equal to an AF_INET6 address
whose storage begins with the same 4 bytes, because ip_equal never looks at
the second argument's family. -/
theorem claim_C3_counterexample :
    (IP.mk AF_INET [9, 9, 9, 9, 0, 0, 0, 0, 0, 0, 0, 0, 0, 0, 0, 0]).family ≠
      (IP.mk AF_INET6 [9, 9, 9, 9, 1, 2, 3, 4, 5, 6, 7, 8, 9, 10, 11, 12]).family ∧
    ip_equal (IP.mk AF_INET [9, 9, 9, 9, 0, 0, 0, 0, 0, 0, 0, 0, 0, 0, 0, 0])
      (IP.mk AF_INET6 [9, 9, 9, 9, 1, 2, 3, 4, 5, 6, 7, 8, 9, 10, 11, 12]) = true := by
  constructor
  · decide
  · decide

/-- Claim C3 (amended): ip_equal is reflexive on addresses whose family is
IPv4 or IPv6 (reflexivity fails for Unspecified), it is symmetric on pairs
of equal family, and it is false whenever the FIRST argument's family is
neither IPv4 nor IPv6 (in particular when the first argument is
Unspecified). Cross-family pairs are compared by the first argument's view
of both storages, so they are not always unequal and symmetry can fail
across families. -/
theorem claim_C3_amended :
    (∀ a : IP, a.family = AF_INET ∨ a.family = AF_INET6 → ip_equal a a = true) ∧
    (∀ a b : IP, a.family = b.family → ip_equal a b = ip_equal b a) ∧
    (∀ a b : IP, a.family ≠ AF_INET → a.family ≠ AF_INET6 → ip_equal a b = false) := by
  refine ⟨?_, ?_, ?_⟩
  · intro a h
    rcases h with h | h <;> simp [ip_equal, h, AF_INET, AF_INET6]
  · intro a b h
    simp only [ip_equal, ← h]
    by_cases h4 : a.family = AF_INET
    · simp only [h4, if_true]
      exact decide_eq_decide.mpr eq_comm
    · by_cases h6 : a.family = AF_INET6
      · simp only [h4, h6, if_false, if_true]
        exact decide_eq_decide.mpr eq_comm
      · simp [h4, h6]
  · intro a b h4 h6
    simp [ip_equal, h4, h6]

/-- Claim C3 amended, witness: reflexivity at a concrete IPv4 address,
symmetry at a concrete same-family pair, falsity at a concrete Unspecified
first argument. -/
theorem claim_C3_amended_witness :
    ip_equal (IP.mk AF_INET [1, 2, 3, 4, 0, 0, 0, 0, 0, 0, 0, 0, 0, 0, 0, 0])
      (IP.mk AF_INET [1, 2, 3, 4, 0, 0, 0, 0, 0, 0, 0, 0, 0, 0, 0, 0]) = true ∧
    ip_equal (IP.mk AF_INET6 [1, 2, 3, 4, 5, 6, 7, 8, 9, 10, 11, 12, 13, 14, 15, 16])
        (IP.mk AF_INET6 (List.replicate 16 0)) =
      ip_equal (IP.mk AF_INET6 (List.replicate 16 0))
        (IP.mk AF_INET6 [1, 2, 3, 4, 5, 6, 7, 8, 9, 10, 11, 12, 13, 14, 15, 16]) ∧
    ip_equal (IP.mk AF_UNSPEC [1, 2, 3, 4, 0, 0, 0, 0, 0, 0, 0, 0, 0, 0, 0, 0])
      (IP.mk AF_UNSPEC [1, 2, 3, 4, 0, 0, 0, 0, 0, 0, 0, 0, 0, 0, 0, 0]) = false := by
  refine ⟨?_, ?_, ?_⟩
  · exact claim_C3_amended.1 (IP.mk AF_INET [1, 2, 3, 4, 0, 0, 0, 0, 0, 0, 0, 0, 0, 0, 0, 0])
      (Or.inl rfl)
  · exact claim_C3_amended.2.1
      (IP.mk AF_INET6 [1, 2, 3, 4, 5, 6, 7, 8, 9, 10, 11, 12, 13, 14, 15, 16])
      (IP.mk AF_INET6 (List.replicate 16 0)) rfl
  · exact claim_C3_amended.2.2
      (IP.mk AF_UNSPEC [1, 2, 3, 4, 0, 0, 0, 0, 0, 0, 0, 0, 0, 0, 0, 0])
      (IP.mk AF_UNSPEC [1, 2, 3, 4, 0, 0, 0, 0, 0, 0, 0, 0, 0, 0, 0, 0])
      (by decide) (by decide)

/-- Claim C8 counterexample: ip_isset does not return false on an address
whose value bytes are all zero: an AF_INET address with all-zero storage is
reported as set, because only the family tag is consulted. -/
theorem claim_C8_counterexample :
    (IP.mk AF_INET (List.replicate 16 0)).addr.all (fun b => b = 0) = true ∧
    ip_isset (IP.mk AF_INET (List.replicate 16 0)) = true := by
  constructor
  · decide
  · decide

/-- Claim C8 (amended): ip_isset returns false exactly when the family tag
is Unspecified (0); the value bytes are ignored, so an all-zero IPv4 or
IPv6 address still counts as set. -/
theorem claim_C8_amended (a : IP) : ip_isset a = false ↔ a.family = AF_UNSPEC := by
  simp [ip_isset, AF_UNSPEC]

/-- Claim C10: ipport_equal is false whenever the first endpoint's port is
0, even on a byte-for-byte identical pair, so it is not reflexive on
endpoints with port 0. -/
theorem claim_C10 (a b : IP_Port) (h : a.port = 0) :
    ipport_equal a b = false ∧ ipport_equal a a = false := by
  constructor <;> simp [ipport_equal, h]

/-- Claim C10, witness: a concrete endpoint with port 0 that is unequal to
itself. -/
theorem claim_C10_witness :
    ipport_equal
        (IP_Port.mk (IP.mk AF_INET [1, 2, 3, 4, 0, 0, 0, 0, 0, 0, 0, 0, 0, 0, 0, 0]) 0)
        (IP_Port.mk (IP.mk AF_INET [1, 2, 3, 4, 0, 0, 0, 0, 0, 0, 0, 0, 0, 0, 0, 0]) 0) =
      false :=
  (claim_C10
    (IP_Port.mk (IP.mk AF_INET [1, 2, 3, 4, 0, 0, 0, 0, 0, 0, 0, 0, 0, 0, 0, 0]) 0)
    (IP_Port.mk (IP.mk AF_INET [1, 2, 3, 4, 0, 0, 0, 0, 0, 0, 0, 0, 0, 0, 0, 0]) 0)
    rfl).2

/-- MAX_UDP_PACKET_SIZE of network.h (the largest UDP payload). -/
def MAX_UDP_PACKET_SIZE : Nat := 65507

/-- One dispatch-table slot: the handler function pointer (none = NULL) and
the opaque context pointer, modelled as an identifier. -/
structure Packet_Handler where
  function : Option Nat
  object : Nat
deriving DecidableEq, Repr

/-- Networking_Core of network.h: the 256-slot dispatch table, the bound
family, the recorded port and the socket handle. -/
structure Networking_Core where
  packethandlers : Fin 256 → Packet_Handler
  family : Nat
  port : Nat
  sock : Nat

/-- A struct sockaddr_storage as filled in by sendpacket or as produced by
recvfrom: a sockaddr_in (4 address bytes and a port), a sockaddr_in6
(16 address bytes and a port; sendpacket always zeroes flowinfo and
scope_id, so they are omitted), or a sockaddr of some other family. -/
inductive SockaddrStorage where
  | v4 (addr : List Nat) (port : Nat)
  | v6 (addr : List Nat) (port : Nat)
  | other (family : Nat)
deriving DecidableEq, Repr

/-- The observable outcome of sendpacket: either it returned without
calling sendto (with the given return value), or it called sendto with the
given wire address and payload. -/
inductive SendResult where
  | noSend (ret : Int)
  | sent (wire : SockaddrStorage) (data : List Nat)
deriving DecidableEq, Repr

/-- sendpacket of network.c (TOX_ENABLE_IPV6 build): translates the
destination IP_Port into a wire sockaddr and hands the payload to sendto,
or returns 0 without sending when the family combination is unsupported.
An IPv4 destination on an IPv6-bound socket becomes the v4-mapped address
whose 16 bytes are 0 x 10, 0xFF, 0xFF, then the 4 IPv4 bytes. -/
def sendpacket (net : Networking_Core) (ip_port : IP_Port) (data : List Nat) : SendResult :=
  if net.family = AF_INET ∧ ip_port.ip.family ≠ AF_INET then
    SendResult.noSend 0
  else if ip_port.ip.family = AF_INET then
    if net.family = AF_INET6 then
      SendResult.sent
        (SockaddrStorage.v6
          ([0, 0, 0, 0, 0, 0, 0, 0, 0, 0, 255, 255] ++ ip_port.ip.ip4) ip_port.port)
        data
    else
      SendResult.sent (SockaddrStorage.v4 ip_port.ip.ip4 ip_port.port) data
  else if ip_port.ip.family = AF_INET6 then
    SendResult.sent (SockaddrStorage.v6 ip_port.ip.addr ip_port.port) data
  else
    SendResult.noSend 0

/-- Claim C1: sending an IPv4 destination through an IPv6-bound socket
passes sendto a sockaddr_in6 whose sin6_addr has bytes 0-9 zero, bytes
10-11 equal to 0xFF 0xFF, bytes 12-15 equal to the destination's 4 IPv4
bytes, and whose port is the destination port unchanged. -/
theorem claim_C1 (net : Networking_Core) (ip_port : IP_Port) (data : List Nat)
    (hnet : net.family = AF_INET6) (hdst : ip_port.ip.family = AF_INET) :
    ∃ w : List Nat,
      sendpacket net ip_port data = SendResult.sent (SockaddrStorage.v6 w ip_port.port) data ∧
      w.take 10 = List.replicate 10 0 ∧
      w[10]? = some 255 ∧ w[11]? = some 255 ∧
      w.drop 12 = ip_port.ip.ip4 := by
  refine ⟨[0, 0, 0, 0, 0, 0, 0, 0, 0, 0, 255, 255] ++ ip_port.ip.ip4, ?_, ?_, ?_, ?_, ?_⟩
  · simp [sendpacket, hnet, hdst, AF_INET, AF_INET6]
  · rfl
  · rw [List.getElem?_append]; norm_num
  · rw [List.getElem?_append]; norm_num
  · rfl

/-- Claim C1, witness at a concrete socket, destination and payload. -/
theorem claim_C1_witness :
    ∃ w : List Nat,
      sendpacket
          (Networking_Core.mk (fun _ => Packet_Handler.mk none 0) AF_INET6 40000 3)
          (IP_Port.mk (IP.mk AF_INET [10, 0, 0, 7, 0, 0, 0, 0, 0, 0, 0, 0, 0, 0, 0, 0]) 33445)
          [1, 2, 3] =
        SendResult.sent (SockaddrStorage.v6 w 33445) [1, 2, 3] ∧
      w.take 10 = List.replicate 10 0 ∧
      w[10]? = some 255 ∧ w[11]? = some 255 ∧
      w.drop 12 = (IP.mk AF_INET [10, 0, 0, 7, 0, 0, 0, 0, 0, 0, 0, 0, 0, 0, 0, 0]).ip4 :=
  claim_C1
    (Networking_Core.mk (fun _ => Packet_Handler.mk none 0) AF_INET6 40000 3)
    (IP_Port.mk (IP.mk AF_INET [10, 0, 0, 7, 0, 0, 0, 0, 0, 0, 0, 0, 0, 0, 0, 0]) 33445)
    [1, 2, 3] rfl rfl

/-- Claim C5: an IPv4-bound socket sending to an IPv6 destination returns 0
and performs no sendto call. -/
theorem claim_C5 (net : Networking_Core) (ip_port : IP_Port) (data : List Nat)
    (hnet : net.family = AF_INET) (hdst : ip_port.ip.family = AF_INET6) :
    sendpacket net ip_port data = SendResult.noSend 0 := by
  have : ip_port.ip.family ≠ AF_INET := by rw [hdst]; decide
  simp [sendpacket, hnet, this]

/-- Claim C5, witness at a concrete socket and destination. -/
theorem claim_C5_witness :
    sendpacket
        (Networking_Core.mk (fun _ => Packet_Handler.mk none 0) AF_INET 40000 3)
        (IP_Port.mk (IP.mk AF_INET6 (List.replicate 16 1)) 33445)
        [1, 2, 3] =
      SendResult.noSend 0 :=
  claim_C5
    (Networking_Core.mk (fun _ => Packet_Handler.mk none 0) AF_INET 40000 3)
    (IP_Port.mk (IP.mk AF_INET6 (List.replicate 16 1)) 33445)
    [1, 2, 3] rfl rfl

/-- Writes the 4-byte ip4 view into the union storage of an out-parameter,
leaving the remaining 12 bytes of the previous storage in place, exactly as
the assignment ip_port->ip.ip4.in_addr = sin_addr does. -/
def setIp4 (store a : List Nat) : List Nat := a.take 4 ++ store.drop 4

/-- receivepacket of network.c (TOX_ENABLE_IPV6 build). Its recvfrom call
is an input: ret is the value recvfrom returned and wire the source address
it filled in; prev is the previous contents of the out-parameter ip_port.
Returns none for the C return value -1 and some decoded IP_Port for 0. -/
def receivepacket (ret : Int) (wire : SockaddrStorage) (prev : IP_Port) : Option IP_Port :=
  if ret ≤ 0 then none
  else
    match wire with
    | SockaddrStorage.v4 a p => some (IP_Port.mk (IP.mk AF_INET (setIp4 prev.ip.addr a)) p)
    | SockaddrStorage.v6 a p => some (IP_Port.mk (IP.mk AF_INET6 a) p)
    | SockaddrStorage.other _ => none

/-- Claim C6: receivepacket fails exactly when the read length is zero or
negative or the wire family is neither IPv4 nor IPv6; otherwise it succeeds
with the sender's family, address bytes and port decoded from the wire
sockaddr. -/
theorem claim_C6 (ret : Int) (wire : SockaddrStorage) (prev : IP_Port) :
    (receivepacket ret wire prev = none ↔
      ret ≤ 0 ∨ ∃ f, wire = SockaddrStorage.other f) ∧
    (∀ a p, 0 < ret → wire = SockaddrStorage.v4 a p →
      receivepacket ret wire prev =
        some (IP_Port.mk (IP.mk AF_INET (setIp4 prev.ip.addr a)) p)) ∧
    (∀ a p, 0 < ret → wire = SockaddrStorage.v6 a p →
      receivepacket ret wire prev = some (IP_Port.mk (IP.mk AF_INET6 a) p)) := by
  refine ⟨?_, ?_, ?_⟩
  · by_cases hr : ret ≤ 0
    · simp [receivepacket, hr]
    · cases wire <;> simp [receivepacket, hr]
  · intro a p hr hw
    rw [hw]
    simp [receivepacket, not_le.mpr hr]
  · intro a p hr hw
    rw [hw]
    simp [receivepacket, not_le.mpr hr]

/-- Claim C6, witness: a concrete empty read fails, a concrete IPv4 wire
address decodes, a concrete IPv6 wire address decodes. -/
theorem claim_C6_witness :
    receivepacket 0 (SockaddrStorage.v4 [10, 0, 0, 7] 33445)
        (IP_Port.mk (IP.mk AF_UNSPEC (List.replicate 16 9)) 0) = none ∧
    receivepacket 5 (SockaddrStorage.v4 [10, 0, 0, 7] 33445)
        (IP_Port.mk (IP.mk AF_UNSPEC (List.replicate 16 9)) 0) =
      some (IP_Port.mk
        (IP.mk AF_INET (setIp4 (List.replicate 16 9) [10, 0, 0, 7])) 33445) ∧
    receivepacket 5 (SockaddrStorage.v6 (List.replicate 16 2) 33445)
        (IP_Port.mk (IP.mk AF_UNSPEC (List.replicate 16 9)) 0) =
      some (IP_Port.mk (IP.mk AF_INET6 (List.replicate 16 2)) 33445) := by
  refine ⟨?_, ?_, ?_⟩
  · exact (claim_C6 0 (SockaddrStorage.v4 [10, 0, 0, 7] 33445)
      (IP_Port.mk (IP.mk AF_UNSPEC (List.replicate 16 9)) 0)).1.mpr (Or.inl (by decide))
  · exact (claim_C6 5 (SockaddrStorage.v4 [10, 0, 0, 7] 33445)
      (IP_Port.mk (IP.mk AF_UNSPEC (List.replicate 16 9)) 0)).2.1
      [10, 0, 0, 7] 33445 (by decide) rfl
  · exact (claim_C6 5 (SockaddrStorage.v6 (List.replicate 16 2) 33445)
      (IP_Port.mk (IP.mk AF_UNSPEC (List.replicate 16 9)) 0)).2.2
      (List.replicate 16 2) 33445 (by decide) rfl

/-- networking_registerhandler of network.c: stores the callback and the
context object in the dispatch slot for the given byte. -/
def networking_registerhandler (net : Networking_Core) (byte : Fin 256)
    (cb : Option Nat) (object : Nat) : Networking_Core :=
  { net with
    packethandlers := fun i =>
      if i = byte then Packet_Handler.mk cb object else net.packethandlers i }

/-- Claim C9: registering a handler sets exactly the chosen dispatch slot to
the new (handler, context) pair, overwriting it, and leaves the other 255
slots and the family, port and socket fields of the Networking_Core
unchanged. -/
theorem claim_C9 (net : Networking_Core) (byte : Fin 256) (cb : Option Nat) (object : Nat) :
    (networking_registerhandler net byte cb object).packethandlers byte =
      Packet_Handler.mk cb object ∧
    (∀ i : Fin 256, i ≠ byte →
      (networking_registerhandler net byte cb object).packethandlers i =
        net.packethandlers i) ∧
    (networking_registerhandler net byte cb object).family = net.family ∧
    (networking_registerhandler net byte cb object).port = net.port ∧
    (networking_registerhandler net byte cb object).sock = net.sock := by
  refine ⟨?_, ?_, rfl, rfl, rfl⟩
  · simp [networking_registerhandler]
  · intro i hi
    simp [networking_registerhandler, hi]

/-- Claim C9, witness: registering handler 5 with context 3 at tag 7 on a
concrete core updates slot 7 and leaves slot 8 alone. -/
theorem claim_C9_witness :
    (networking_registerhandler
        (Networking_Core.mk (fun _ => Packet_Handler.mk none 0) AF_INET 33445 4)
        (7 : Fin 256) (some 5) 3).packethandlers (7 : Fin 256) =
      Packet_Handler.mk (some 5) 3 ∧
    (networking_registerhandler
        (Networking_Core.mk (fun _ => Packet_Handler.mk none 0) AF_INET 33445 4)
        (7 : Fin 256) (some 5) 3).packethandlers (8 : Fin 256) =
      (Networking_Core.mk (fun _ => Packet_Handler.mk none 0) AF_INET 33445 4).packethandlers
        (8 : Fin 256) :=
  ⟨(claim_C9 (Networking_Core.mk (fun _ => Packet_Handler.mk none 0) AF_INET 33445 4)
      (7 : Fin 256) (some 5) 3).1,
   (claim_C9 (Networking_Core.mk (fun _ => Packet_Handler.mk none 0) AF_INET 33445 4)
      (7 : Fin 256) (some 5) 3).2.1 (8 : Fin 256) (by decide)⟩

/-- The dispatch index of a payload byte (data[0] is a uint8 in C). -/
def tagOf (b : Nat) : Fin 256 := ⟨b % 256, Nat.mod_lt b (by norm_num)⟩

/-- One datagram queued in the OS receive buffer: the source address that
recvfrom will report and the raw payload. -/
structure Datagram where
  wire : SockaddrStorage
  payload : List Nat
deriving DecidableEq, Repr

/-- One synchronous handler invocation observed during networking_poll:
which handler ran, with which context object, and the sender and data
arguments it got. -/
structure Invocation where
  handler : Nat
  object : Nat
  sender : IP_Port
  data : List Nat
deriving DecidableEq, Repr

/-- The while loop of networking_poll of network.c: each iteration performs
one recvfrom (consuming the head of the pending queue; an empty queue makes
recvfrom return -1 and the loop exit), stops as soon as receivepacket
returns -1, skips datagrams without a registered handler for their first
byte, and otherwise invokes the handler with the context object, the
decoded sender and the received data. The ip_port out-parameter is a single
stack variable reused across iterations, so it is threaded through. -/
def networking_poll_loop (handlers : Fin 256 → Packet_Handler) :
    IP_Port → List Datagram → List Invocation
  | _, [] => []
  | ipp, d :: rest =>
    let data := d.payload.take MAX_UDP_PACKET_SIZE
    match receivepacket (Int.ofNat data.length) d.wire ipp with
    | none => []
    | some ipp2 =>
      if data.length < 1 then networking_poll_loop handlers ipp2 rest
      else
        match (handlers (tagOf (data.headD 0))).function with
        | none => networking_poll_loop handlers ipp2 rest
        | some h =>
          Invocation.mk h (handlers (tagOf (data.headD 0))).object ipp2 data ::
            networking_poll_loop handlers ipp2 rest

/-- networking_poll of network.c, with the pending OS receive queue and the
initial (uninitialized) contents of the stack ip_port as inputs; returns
the handler invocations in order. -/
def networking_poll (net : Networking_Core) (ipp0 : IP_Port) (pending : List Datagram) :
    List Invocation :=
  networking_poll_loop net.packethandlers ipp0 pending

/-- The sockaddr lengths recvfrom actually produces: 4 address bytes for
sockaddr_in, 16 for sockaddr_in6. -/
def wireWellFormed : SockaddrStorage → Prop
  | SockaddrStorage.v4 a _ => a.length = 4
  | SockaddrStorage.v6 a _ => a.length = 16
  | SockaddrStorage.other _ => True

/-- A datagram that receivepacket accepts: nonempty payload that fits the
receive buffer, a well-formed source sockaddr of a recognized family. -/
def validDatagram (d : Datagram) : Prop :=
  d.payload ≠ [] ∧ d.payload.length ≤ MAX_UDP_PACKET_SIZE ∧
    wireWellFormed d.wire ∧ ∀ f, d.wire ≠ SockaddrStorage.other f

/-- The decoded endpoint an invocation receives agrees with the wire source
address of the datagram: same family, same address bytes (for IPv4, the
4-byte ip4 view), same port. -/
def wireMatches : SockaddrStorage → IP_Port → Prop
  | SockaddrStorage.v4 a p, ipp =>
      ipp.ip.family = AF_INET ∧ ipp.ip.addr.take 4 = a ∧ ipp.port = p
  | SockaddrStorage.v6 a p, ipp =>
      ipp.ip.family = AF_INET6 ∧ ipp.ip.addr = a ∧ ipp.port = p
  | SockaddrStorage.other _, _ => False

lemma setIp4_take4 (store a : List Nat) (h : a.length = 4) :
    (setIp4 store a).take 4 = a := by
  have ha : a.take 4 = a := List.take_of_length_le (le_of_eq h)
  rw [setIp4, ha, List.take_append_eq_append_take, h, ha]
  simp

lemma poll_loop_spec (handlers : Fin 256 → Packet_Handler) :
    ∀ (pending : List Datagram) (ipp0 : IP_Port),
      (∀ d ∈ pending, validDatagram d) →
      List.Forall₂
        (fun d inv =>
          (∃ b, d.payload.head? = some b ∧
            (handlers (tagOf b)).function = some inv.handler ∧
            (handlers (tagOf b)).object = inv.object) ∧
          inv.data = d.payload ∧ wireMatches d.wire inv.sender)
        (pending.filter fun d =>
          ((handlers (tagOf (d.payload.headD 0))).function).isSome)
        (networking_poll_loop handlers ipp0 pending) := by
  intro pending
  induction pending with
  | nil =>
    intro ipp0 hv
    exact List.Forall₂.nil
  | cons d rest ih =>
    intro ipp0 hv
    obtain ⟨hne, hlen, hwf, hother⟩ := hv d (List.mem_cons_self d rest)
    have hvrest : ∀ x ∈ rest, validDatagram x := fun x hx => hv x (List.mem_cons_of_mem d hx)
    obtain ⟨wire, payload⟩ := d
    cases payload with
    | nil => exact absurd rfl hne
    | cons b tl =>
      have hdata : (b :: tl).take MAX_UDP_PACKET_SIZE = b :: tl :=
        List.take_of_length_le hlen
      have hpos : ¬ (Int.ofNat (b :: tl).length ≤ 0) := by
        rw [List.length_cons, not_le]
        exact Int.ofNat_pos.mpr (Nat.succ_pos tl.length)
      have hlt1 : ¬ ((b :: tl).length < 1) := by
        rw [List.length_cons]; omega
      cases wire with
      | other f => exact absurd rfl (hother f)
      | v4 a p =>
        have ha4 : a.length = 4 := hwf
        have hrecv : receivepacket (Int.ofNat (b :: tl).length)
            (SockaddrStorage.v4 a p) ipp0 =
            some (IP_Port.mk (IP.mk AF_INET (setIp4 ipp0.ip.addr a)) p) := by
          simp only [receivepacket, if_neg hpos]
        rw [List.filter_cons]
        simp only [networking_poll_loop, hdata, hrecv, if_neg hlt1, List.headD_cons]
        by_cases hfn : ((handlers (tagOf b)).function).isSome = true
        · obtain ⟨h, hfun⟩ := Option.isSome_iff_exists.mp hfn
          rw [if_pos hfn]
          simp only [hfun]
          exact List.Forall₂.cons
            ⟨⟨b, rfl, hfun, rfl⟩, rfl, rfl, setIp4_take4 ipp0.ip.addr a ha4, rfl⟩
            (ih (IP_Port.mk (IP.mk AF_INET (setIp4 ipp0.ip.addr a)) p) hvrest)
        · rw [if_neg hfn]
          simp only [Option.not_isSome_iff_eq_none.mp hfn]
          exact ih (IP_Port.mk (IP.mk AF_INET (setIp4 ipp0.ip.addr a)) p) hvrest
      | v6 a p =>
        have hrecv : receivepacket (Int.ofNat (b :: tl).length)
            (SockaddrStorage.v6 a p) ipp0 =
            some (IP_Port.mk (IP.mk AF_INET6 a) p) := by
          simp only [receivepacket, if_neg hpos]
        rw [List.filter_cons]
        simp only [networking_poll_loop, hdata, hrecv, if_neg hlt1, List.headD_cons]
        by_cases hfn : ((handlers (tagOf b)).function).isSome = true
        · obtain ⟨h, hfun⟩ := Option.isSome_iff_exists.mp hfn
          rw [if_pos hfn]
          simp only [hfun]
          exact List.Forall₂.cons
            ⟨⟨b, rfl, hfun, rfl⟩, rfl, rfl, rfl, rfl⟩
            (ih (IP_Port.mk (IP.mk AF_INET6 a) p) hvrest)
        · rw [if_neg hfn]
          simp only [Option.not_isSome_iff_eq_none.mp hfn]
          exact ih (IP_Port.mk (IP.mk AF_INET6 a) p) hvrest

lemma poll_loop_stops (handlers : Fin 256 → Packet_Handler) :
    ∀ (good : List Datagram) (bad : Datagram) (more : List Datagram) (ipp0 : IP_Port),
      (∀ d ∈ good, validDatagram d) →
      (bad.payload = [] ∨ ∃ f, bad.wire = SockaddrStorage.other f) →
      networking_poll_loop handlers ipp0 (good ++ bad :: more) =
        networking_poll_loop handlers ipp0 good := by
  intro good
  induction good with
  | nil =>
    intro bad more ipp0 _ hbad
    obtain ⟨wire, payload⟩ := bad
    rcases hbad with hemp | ⟨f, hf⟩
    · have hp : payload = [] := hemp
      subst hp
      simp [networking_poll_loop, receivepacket]
    · have hw : wire = SockaddrStorage.other f := hf
      subst hw
      simp [networking_poll_loop, receivepacket]
  | cons d rest ih =>
    intro bad more ipp0 hgood hbad
    obtain ⟨hne, hlen, hwf, hother⟩ := hgood d (List.mem_cons_self d rest)
    have hgrest : ∀ x ∈ rest, validDatagram x :=
      fun x hx => hgood x (List.mem_cons_of_mem d hx)
    obtain ⟨wire, payload⟩ := d
    cases payload with
    | nil => exact absurd rfl hne
    | cons b tl =>
      have hdata : (b :: tl).take MAX_UDP_PACKET_SIZE = b :: tl :=
        List.take_of_length_le hlen
      have hpos : ¬ (Int.ofNat (b :: tl).length ≤ 0) := by
        rw [List.length_cons, not_le]
        exact Int.ofNat_pos.mpr (Nat.succ_pos tl.length)
      have hlt1 : ¬ ((b :: tl).length < 1) := by
        rw [List.length_cons]; omega
      cases wire with
      | other f => exact absurd rfl (hother f)
      | v4 a p =>
        have hrecv : ∀ ipp : IP_Port, receivepacket (Int.ofNat (b :: tl).length)
            (SockaddrStorage.v4 a p) ipp =
            some (IP_Port.mk (IP.mk AF_INET (setIp4 ipp.ip.addr a)) p) := by
          intro ipp
          simp only [receivepacket, if_neg hpos]
        rw [List.cons_append]
        simp only [networking_poll_loop, hdata, hrecv, if_neg hlt1, List.headD_cons]
        by_cases hfn : ((handlers (tagOf b)).function).isSome = true
        · obtain ⟨h, hfun⟩ := Option.isSome_iff_exists.mp hfn
          simp only [hfun]
          exact congrArg _ (ih bad more _ hgrest hbad)
        · simp only [Option.not_isSome_iff_eq_none.mp hfn]
          exact ih bad more _ hgrest hbad
      | v6 a p =>
        have hrecv : ∀ ipp : IP_Port, receivepacket (Int.ofNat (b :: tl).length)
            (SockaddrStorage.v6 a p) ipp =
            some (IP_Port.mk (IP.mk AF_INET6 a) p) := by
          intro ipp
          simp only [receivepacket, if_neg hpos]
        rw [List.cons_append]
        simp only [networking_poll_loop, hdata, hrecv, if_neg hlt1, List.headD_cons]
        by_cases hfn : ((handlers (tagOf b)).function).isSome = true
        · obtain ⟨h, hfun⟩ := Option.isSome_iff_exists.mp hfn
          simp only [hfun]
          exact congrArg _ (ih bad more _ hgrest hbad)
        · simp only [Option.not_isSome_iff_eq_none.mp hfn]
          exact ih bad more _ hgrest hbad

/-- Claim C4: draining repeatedly receives until a receive fails. Among
valid pending datagrams (nonempty payload, recognized sender family),
exactly those whose first byte has a registered handler produce exactly one
synchronous invocation each, in order, carrying the registered handler and
context, a sender endpoint agreeing with the wire source address, and the
full payload including the tag byte; datagrams with no registered handler
produce nothing. A failing receive — an empty datagram or an unrecognized
sender family — ends the drain there, and an empty queue (where the first
receive already fails) produces zero invocations. -/
theorem claim_C4 (net : Networking_Core) (ipp0 : IP_Port) :
    (∀ pending : List Datagram, (∀ d ∈ pending, validDatagram d) →
      List.Forall₂
        (fun d inv =>
          (∃ b, d.payload.head? = some b ∧
            (net.packethandlers (tagOf b)).function = some inv.handler ∧
            (net.packethandlers (tagOf b)).object = inv.object) ∧
          inv.data = d.payload ∧ wireMatches d.wire inv.sender)
        (pending.filter fun d =>
          ((net.packethandlers (tagOf (d.payload.headD 0))).function).isSome)
        (networking_poll net ipp0 pending)) ∧
    (∀ (good : List Datagram) (bad : Datagram) (more : List Datagram),
      (∀ d ∈ good, validDatagram d) →
      (bad.payload = [] ∨ ∃ f, bad.wire = SockaddrStorage.other f) →
      networking_poll net ipp0 (good ++ bad :: more) = networking_poll net ipp0 good) :=
  ⟨fun pending hv => poll_loop_spec net.packethandlers pending ipp0 hv,
   fun good bad more hg hb => poll_loop_stops net.packethandlers good bad more ipp0 hg hb⟩

/-- A concrete core for exercising networking_poll: handler 1 with context
42 registered for tag 7 only. -/
def sampleCore : Networking_Core :=
  Networking_Core.mk
    (fun i => if i.val = 7 then Packet_Handler.mk (some 1) 42 else Packet_Handler.mk none 0)
    AF_INET6 33445 3

/-- A concrete datagram with tag byte 7 from an IPv4 sender. -/
def sampleD7 : Datagram :=
  Datagram.mk (SockaddrStorage.v4 [10, 0, 0, 7] 33445) [7, 1, 2]

/-- A concrete datagram with (unregistered) tag byte 8 from an IPv6
sender. -/
def sampleD8 : Datagram :=
  Datagram.mk (SockaddrStorage.v6 (List.replicate 16 2) 5) [8, 9]

/-- A concrete empty datagram, which makes the receive fail. -/
def sampleBad : Datagram :=
  Datagram.mk (SockaddrStorage.v4 [10, 0, 0, 8] 1) []

/-- A concrete initial value for the stack ip_port out-parameter. -/
def sampleIpp : IP_Port := IP_Port.mk (IP.mk AF_UNSPEC (List.replicate 16 0)) 0

/-- Claim C4, witness: on a concrete queue the registered tag-7 datagram
dispatches and the unregistered tag-8 one does not; an empty datagram in
the middle stops the drain; an empty queue dispatches nothing. -/
theorem claim_C4_witness :
    List.Forall₂
      (fun d inv =>
        (∃ b, d.payload.head? = some b ∧
          (sampleCore.packethandlers (tagOf b)).function = some inv.handler ∧
          (sampleCore.packethandlers (tagOf b)).object = inv.object) ∧
        inv.data = d.payload ∧ wireMatches d.wire inv.sender)
      ([sampleD7, sampleD8].filter fun d =>
        ((sampleCore.packethandlers (tagOf (d.payload.headD 0))).function).isSome)
      (networking_poll sampleCore sampleIpp [sampleD7, sampleD8]) ∧
    networking_poll sampleCore sampleIpp ([sampleD7] ++ sampleBad :: [sampleD8]) =
      networking_poll sampleCore sampleIpp [sampleD7] ∧
    networking_poll sampleCore sampleIpp [] = [] := by
  have v7 : validDatagram sampleD7 :=
    ⟨by decide, by decide, by simp [sampleD7, wireWellFormed],
      fun f h => SockaddrStorage.noConfusion h⟩
  have v8 : validDatagram sampleD8 :=
    ⟨by decide, by decide, by simp [sampleD8, wireWellFormed],
      fun f h => SockaddrStorage.noConfusion h⟩
  refine ⟨(claim_C4 sampleCore sampleIpp).1 [sampleD7, sampleD8] ?_,
    (claim_C4 sampleCore sampleIpp).2 [sampleD7] sampleBad [sampleD8] ?_ (Or.inl rfl),
    List.forall₂_nil_left_iff.mp
      ((claim_C4 sampleCore sampleIpp).1 [] (fun d hd => absurd hd (List.not_mem_nil d)))⟩
  · intro d hd
    rcases List.mem_cons.mp hd with h | hd2
    · exact h ▸ v7
    · rcases List.mem_cons.mp hd2 with h | h0
      · exact h ▸ v8
      · exact absurd h0 (List.not_mem_nil d)
  · intro d hd
    rcases List.mem_cons.mp hd with h | h0
    · exact h ▸ v7
    · exact absurd h0 (List.not_mem_nil d)

/-- The number of bind attempts new_networking makes. -/
def bindAttempts : Nat := 9

/-- The bind retry loop of new_networking, with the OS bind outcome at each
port as an oracle. The port lives in a uint16_t wire field and is
incremented through ntohs/htons, hence the wrap mod 65536. Returns the port
of the first successful attempt, or none when every attempt failed. -/
def bindLoop (bindOk : Nat → Bool) : Nat → Nat → Option Nat
  | _, 0 => none
  | p, Nat.succ n => if bindOk p then some p else bindLoop bindOk ((p + 1) % 65536) n

/-- The observable outcome of new_networking: failure before the bind loop
(invalid family), bind exhaustion together with the port value printed in
the error message, or success with the resulting core. -/
inductive NewNetResult where
  | createFail
  | bindFail (reportedPort : Nat)
  | ok (core : Networking_Core)

/-- What new_networking did: the value it passed to the IPV6_V6ONLY socket
option (none when that setsockopt was not called) and the outcome. -/
structure NewNetTrace where
  v6onlyRequested : Option Nat
  result : NewNetResult

/-- new_networking of network.c (TOX_ENABLE_IPV6 build). The OS bind
outcomes are the bindOk oracle; v6onlyFails is whether the IPV6_V6ONLY
setsockopt fails, which the code only logs. The one-time startup, calloc,
socket creation, SO_BROADCAST and O_NONBLOCK steps either always succeed or
only fail before the behavior the claims are about, and are not given
failure oracles. On bind exhaustion the C printf reports the function
parameter named port — the loop increments a local uint16_t that shadows
it — so the original requested port is what gets reported. On success the
core records the port of the successful attempt (the value then stored in
the sockaddr, which bind does not rewrite). -/
def new_networking (ip : IP) (port : Nat) (bindOk : Nat → Bool)
    (v6onlyFails : Bool) : NewNetTrace :=
  if ¬ (ip.family = AF_INET ∨ ip.family = AF_INET6) then
    NewNetTrace.mk none NewNetResult.createFail
  else
    let v6req : Option Nat := if ip.family = AF_INET6 then some 0 else none
    match bindLoop bindOk port bindAttempts with
    | some p =>
      NewNetTrace.mk v6req
        (NewNetResult.ok
          (Networking_Core.mk (fun _ => Packet_Handler.mk none 0) ip.family p 0))
    | none => NewNetTrace.mk v6req (NewNetResult.bindFail port)

/-- The 9 consecutive ports the specification says the bind loop attempts,
starting at the requested port, with uint16_t wraparound. -/
def attemptPorts (port : Nat) : List Nat :=
  (List.range bindAttempts).map (fun i => (port + i) % 65536)

lemma bindLoop_eq_find (bindOk : Nat → Bool) :
    ∀ (n p : Nat), p < 65536 →
      bindLoop bindOk p n = ((List.range n).map (fun i => (p + i) % 65536)).find? bindOk
  | 0, _, _ => rfl
  | Nat.succ n, p, hp => by
    simp only [List.range_succ_eq_map, List.map_cons, List.map_map]
    have h0 : (p + 0) % 65536 = p := by
      rw [Nat.add_zero, Nat.mod_eq_of_lt hp]
    have hfe : ((fun i => (p + i) % 65536) ∘ Nat.succ) =
        fun i => (((p + 1) % 65536) + i) % 65536 := by
      funext i
      simp only [Function.comp_apply]
      rw [Nat.mod_add_mod]
      exact congrArg (fun t => t % 65536) (by omega)
    rw [h0, hfe]
    by_cases hb : bindOk p
    · rw [bindLoop, if_pos hb, List.find?_cons_of_pos _ hb]
    · rw [bindLoop, if_neg hb, List.find?_cons_of_neg _ (by simp [hb])]
      exact bindLoop_eq_find bindOk n ((p + 1) % 65536) (Nat.mod_lt _ (by norm_num))

/-- Claim C2 (amended): for a bindable family and an in-range requested
port, new_networking attempts up to 9 consecutive ports starting at the
requested one; the first attempt the OS accepts ends the loop with that
port recorded in the returned core, and if all 9 attempts fail the call
fails reporting the ORIGINALLY REQUESTED port (not the last attempted one:
the loop increments a local variable that shadows the reported parameter)
together with the OS error. -/
theorem claim_C2_amended (ip : IP) (port : Nat) (bindOk : Nat → Bool) (v6f : Bool)
    (hfam : ip.family = AF_INET ∨ ip.family = AF_INET6) (hport : port < 65536) :
    match (attemptPorts port).find? bindOk with
    | some p =>
        ∃ core, (new_networking ip port bindOk v6f).result = NewNetResult.ok core ∧
          core.port = p ∧ core.family = ip.family
    | none => (new_networking ip port bindOk v6f).result = NewNetResult.bindFail port := by
  have hloop : bindLoop bindOk port bindAttempts = (attemptPorts port).find? bindOk :=
    bindLoop_eq_find bindOk bindAttempts port hport
  have hcond : ¬¬ (ip.family = AF_INET ∨ ip.family = AF_INET6) := not_not_intro hfam
  cases hfind : (attemptPorts port).find? bindOk with
  | some p =>
    refine ⟨Networking_Core.mk (fun _ => Packet_Handler.mk none 0) ip.family p 0, ?_, rfl, rfl⟩
    unfold new_networking
    rw [if_neg hcond]
    simp only [hloop.trans hfind]
  | none =>
    unfold new_networking
    rw [if_neg hcond]
    simp only [hloop.trans hfind]

/-- Claim C2 amended, witness: requesting port 33445 when the OS only
accepts port 33447 succeeds with 33447 recorded on the third attempt. -/
theorem claim_C2_witness :
    ∃ core,
      (new_networking (IP.mk AF_INET [127, 0, 0, 1, 0, 0, 0, 0, 0, 0, 0, 0, 0, 0, 0, 0])
          33445 (fun p => decide (p = 33447)) false).result = NewNetResult.ok core ∧
      core.port = 33447 ∧
      core.family = (IP.mk AF_INET [127, 0, 0, 1, 0, 0, 0, 0, 0, 0, 0, 0, 0, 0, 0, 0]).family := by
  have h := claim_C2_amended (IP.mk AF_INET [127, 0, 0, 1, 0, 0, 0, 0, 0, 0, 0, 0, 0, 0, 0, 0])
    33445 (fun p => decide (p = 33447)) false (Or.inl rfl) (by norm_num)
  have hfind : (attemptPorts 33445).find? (fun p => decide (p = 33447)) = some 33447 := by
    decide
  rw [hfind] at h
  exact h

/-- Claim C2 counterexample: when every bind attempt fails, the reported
port is the originally requested one (1000), not the last attempted one
(1008): the C loop increments a local uint16_t named port that shadows the
parameter the error message prints. -/
theorem claim_C2_counterexample :
    (new_networking (IP.mk AF_INET [127, 0, 0, 1, 0, 0, 0, 0, 0, 0, 0, 0, 0, 0, 0, 0])
        1000 (fun _ => false) false).result = NewNetResult.bindFail 1000 ∧
    (new_networking (IP.mk AF_INET [127, 0, 0, 1, 0, 0, 0, 0, 0, 0, 0, 0, 0, 0, 0, 0])
        1000 (fun _ => false) false).result ≠
      NewNetResult.bindFail ((1000 + 8) % 65536) := by
  constructor
  · rfl
  · intro h
    rw [show (new_networking (IP.mk AF_INET [127, 0, 0, 1, 0, 0, 0, 0, 0, 0, 0, 0, 0, 0, 0, 0])
        1000 (fun _ => false) false).result = NewNetResult.bindFail 1000 from rfl] at h
    have h2 : (1000 : Nat) = (1000 + 8) % 65536 := NewNetResult.bindFail.inj h
    norm_num at h2

/-- Claim C7 counterexample: creating an IPv6 socket passes the value 0 to
the IPV6_V6ONLY option, i.e. it requests dual-stack v4-mapped delivery; it
does not request the (nonzero) IPv6-only mode the claim describes. -/
theorem claim_C7_counterexample :
    (new_networking (IP.mk AF_INET6 (List.replicate 16 0)) 33445 (fun _ => true)
        false).v6onlyRequested = some 0 ∧
    ¬ ∃ v, (new_networking (IP.mk AF_INET6 (List.replicate 16 0)) 33445 (fun _ => true)
        false).v6onlyRequested = some v ∧ v ≠ 0 := by
  constructor
  · rfl
  · rintro ⟨v, hv, hne⟩
    rw [show (new_networking (IP.mk AF_INET6 (List.replicate 16 0)) 33445 (fun _ => true)
        false).v6onlyRequested = some 0 from rfl] at hv
    exact hne (Option.some.inj hv).symm

/-- Claim C7 (amended): during socket creation with requested family IPv6,
the setup passes 0 to the socket option governing v4-mapped delivery
(IPV6_V6ONLY), enabling dual-stack v4-mapped auto-delivery rather than
disabling it, and a failure of that setsockopt changes nothing about the
outcome (the code only logs it). -/
theorem claim_C7_amended (ip : IP) (port : Nat) (bindOk : Nat → Bool)
    (h6 : ip.family = AF_INET6) :
    (∀ v6f : Bool, (new_networking ip port bindOk v6f).v6onlyRequested = some 0) ∧
    (∀ v6f1 v6f2 : Bool,
      new_networking ip port bindOk v6f1 = new_networking ip port bindOk v6f2) := by
  constructor
  · intro v6f
    have hcond : ¬¬ (ip.family = AF_INET ∨ ip.family = AF_INET6) :=
      not_not_intro (Or.inr h6)
    unfold new_networking
    rw [if_neg hcond]
    cases hb : bindLoop bindOk port bindAttempts <;> simp [h6]
  · intro _ _
    rfl

/-- Claim C7 amended, witness at a concrete IPv6 address and port. -/
theorem claim_C7_witness :
    (new_networking (IP.mk AF_INET6 (List.replicate 16 0)) 33445 (fun _ => true)
        true).v6onlyRequested = some 0 ∧
    new_networking (IP.mk AF_INET6 (List.replicate 16 0)) 33445 (fun _ => true) true =
      new_networking (IP.mk AF_INET6 (List.replicate 16 0)) 33445 (fun _ => true) false :=
  ⟨(claim_C7_amended (IP.mk AF_INET6 (List.replicate 16 0)) 33445 (fun _ => true) rfl).1 true,
   (claim_C7_amended (IP.mk AF_INET6 (List.replicate 16 0)) 33445 (fun _ => true) rfl).2
     true false⟩

end Network
